import Mathlib

/-!
Shallow embedding of the Mythic Bastionland combat tracker core
(`src/app.py`): the `Character` record and its damage-resolution engine
`Character.apply_damage`, together with the lifecycle operations
`heal_vigor`, `restore_guard`, `reset_to_full` and the inline
edit-maximums block (`set_maximums`).

Python integers are modelled as `ℤ`.  The human-readable strings appended
to `damage_log` are modelled by the inductive type `Event`, one
constructor per distinct message produced by `apply_damage`, carrying the
interpolated numbers.  The mortal-wound comparison
`vigor_damage >= original_vigor / 2` uses Python true division; it is
embedded as the exact comparison over `ℚ`.
-/

set_option autoImplicit false

namespace MythicBastionland

/-- One entry of the `damage_log` list built by `apply_damage`
(src/app.py lines 40, 49, 55, 66, 72, 78, 83), with the interpolated
numbers as arguments. -/
inductive Event where
  | armorAbsorbed (absorbed : ℤ)
  | guardReduced (amount now : ℤ)
  | scarInflicted
  | vigorReduced (amount now : ℤ)
  | nowWounded
  | mortalWound
  | slain
deriving DecidableEq

/-- `True` for the log entries that record a mitigation step (armor
absorption, guard reduction, vigor reduction), `False` for the pure
status announcements. -/
def Event.isMitigation : Event → Bool
  | .armorAbsorbed _ => true
  | .guardReduced _ _ => true
  | .vigorReduced _ _ => true
  | _ => false

/-- The `Character` dataclass of src/app.py lines 9-29.  `bytes` for the
profile image is modelled as an optional list of byte values. -/
structure Character where
  name : String
  vigor : ℤ
  max_vigor : ℤ
  clarity : ℤ
  max_clarity : ℤ
  spirit : ℤ
  max_spirit : ℤ
  guard : ℤ
  max_guard : ℤ
  armor : ℤ
  is_mortally_wounded : Bool := false
  is_wounded : Bool := false
  is_impaired : Bool := false
  is_fatigued : Bool := false
  is_scarred : Bool := false
  is_alive : Bool := true
  notes : String := ""
  profile_image : Option (List ℕ) := none
deriving DecidableEq

/-- The dictionary returned by `apply_damage` (src/app.py lines 85-93). -/
structure DamageReport where
  original_damage : ℤ
  final_damage : ℤ
  damage_log : List Event
  wounded : Bool
  mortal_wound_inflicted : Bool
  scar_inflicted : Bool
  character_slain : Bool
deriving DecidableEq

/-- Result of the armor step (src/app.py lines 36-40): the running damage
total after absorption and the log entries produced. -/
structure ArmorStageOut where
  remaining : ℤ
  log : List Event
deriving DecidableEq

/-- Step 1 of `apply_damage` (src/app.py lines 36-40): if `armor > 0`,
absorb `min damage armor` and log it; armor itself is not reduced. -/
def armorStage (c : Character) (damage : ℤ) : ArmorStageOut :=
  if c.armor > 0 then
    { remaining := damage - min damage c.armor
      log := [Event.armorAbsorbed (min damage c.armor)] }
  else
    { remaining := damage, log := [] }

/-- Result of the guard step (src/app.py lines 42-55). -/
structure GuardStageOut where
  char : Character
  remaining : ℤ
  scar_inflicted : Bool
  log : List Event

/-- Step 2 of `apply_damage` (src/app.py lines 42-55): runs only if the
remaining damage and `guard` are both positive; reduces guard, and when
guard is brought from a positive value to exactly 0 it sets `is_scarred`
and flags/logs the scar. -/
def guardStage (c : Character) (damage : ℤ) : GuardStageOut :=
  if damage > 0 ∧ c.guard > 0 then
    if c.guard > 0 ∧ c.guard - min damage c.guard = 0 then
      { char := { c with guard := c.guard - min damage c.guard, is_scarred := true }
        remaining := damage - min damage c.guard
        scar_inflicted := true
        log := [Event.guardReduced (min damage c.guard) (c.guard - min damage c.guard),
                Event.scarInflicted] }
    else
      { char := { c with guard := c.guard - min damage c.guard }
        remaining := damage - min damage c.guard
        scar_inflicted := false
        log := [Event.guardReduced (min damage c.guard) (c.guard - min damage c.guard)] }
  else
    { char := c, remaining := damage, scar_inflicted := false, log := [] }

/-- The mortal-wound comparison of src/app.py line 75:
`vigor_damage >= original_vigor / 2`, Python true division, embedded as
the exact comparison over `ℚ`. -/
def mortalCheck (vigor_damage original_vigor : ℤ) : Prop :=
  (original_vigor : ℚ) / 2 ≤ (vigor_damage : ℚ)

instance (vd ov : ℤ) : Decidable (mortalCheck vd ov) :=
  decidable_of_iff (ov ≤ 2 * vd)
    (by unfold mortalCheck
        rw [div_le_iff₀ (by norm_num : (0 : ℚ) < 2), mul_comm]
        norm_cast)

/-- Result of the vigor step (src/app.py lines 57-83). -/
structure VigorStageOut where
  char : Character
  remaining : ℤ
  wounded : Bool
  mortal_wound_inflicted : Bool
  log : List Event

/-- Step 3 of `apply_damage` (src/app.py lines 57-83): runs only if
damage remains; reduces vigor, marks `is_wounded` on any vigor loss,
checks the mortal-wound threshold `vigor_damage >= original_vigor / 2`
(exact division, over `ℚ`), and marks death when vigor reaches `≤ 0`.
Unlike the armor and guard steps, this step never decrements the running
damage total (there is no `damage -= vigor_damage` in the source), so
`remaining` is passed through unchanged. -/
def vigorStage (c : Character) (damage : ℤ) : VigorStageOut :=
  if damage > 0 then
    { char := { c with
        vigor := c.vigor - min damage c.vigor
        is_wounded := c.is_wounded || decide (min damage c.vigor > 0)
        is_mortally_wounded := c.is_mortally_wounded ||
          decide (mortalCheck (min damage c.vigor) c.vigor)
        is_alive := c.is_alive && !(decide (c.vigor - min damage c.vigor ≤ 0)) }
      remaining := damage
      wounded := decide (min damage c.vigor > 0)
      mortal_wound_inflicted := decide (mortalCheck (min damage c.vigor) c.vigor)
      log := [Event.vigorReduced (min damage c.vigor) (c.vigor - min damage c.vigor)]
        ++ (if min damage c.vigor > 0 then [Event.nowWounded] else [])
        ++ (if mortalCheck (min damage c.vigor) c.vigor then [Event.mortalWound] else [])
        ++ (if c.vigor - min damage c.vigor ≤ 0 then [Event.slain] else []) }
  else
    { char := c, remaining := damage, wounded := false,
      mortal_wound_inflicted := false, log := [] }

/-- `Character.apply_damage` (src/app.py lines 31-93): the three-stage
pipeline, returning the mutated record and the report dictionary.
`final_damage = original_damage - damage` (src/app.py line 87) where
`damage` is the running total; only the armor and guard steps decrement
it (src/app.py lines 39 and 48), the vigor step does not, so it equals
armor absorption plus guard loss.  `character_slain` is the negated
post-hit alive status. -/
def Character.apply_damage (c : Character) (damage : ℤ) : Character × DamageReport :=
  let a := armorStage c damage
  let g := guardStage c a.remaining
  let v := vigorStage g.char g.remaining
  (v.char,
   { original_damage := damage
     final_damage := damage - v.remaining
     damage_log := a.log ++ g.log ++ v.log
     wounded := v.wounded
     mortal_wound_inflicted := v.mortal_wound_inflicted
     scar_inflicted := g.scar_inflicted
     character_slain := !v.char.is_alive })

/-- `Character.heal_vigor` (src/app.py lines 95-101): raise vigor capped
at `max_vigor`; on reaching exactly `max_vigor`, clear `is_wounded` and
`is_mortally_wounded`. -/
def Character.heal_vigor (c : Character) (amount : ℤ) : Character :=
  if min (c.vigor + amount) c.max_vigor = c.max_vigor then
    { c with vigor := min (c.vigor + amount) c.max_vigor,
             is_wounded := false, is_mortally_wounded := false }
  else
    { c with vigor := min (c.vigor + amount) c.max_vigor }

/-- `Character.restore_guard` (src/app.py lines 103-105). -/
def Character.restore_guard (c : Character) (amount : ℤ) : Character :=
  { c with guard := min (c.guard + amount) c.max_guard }

/-- `Character.reset_to_full` (src/app.py lines 107-118). -/
def Character.reset_to_full (c : Character) : Character :=
  { c with
    vigor := c.max_vigor
    clarity := c.max_clarity
    spirit := c.max_spirit
    guard := c.max_guard
    is_mortally_wounded := false
    is_wounded := false
    is_impaired := false
    is_fatigued := false
    is_scarred := false
    is_alive := true }

/-- The edit-character block of src/app.py lines 397-408: overwrite the
four maximums and `armor`, then re-clamp each current pool value to its
new maximum. -/
def Character.set_maximums (c : Character) (mv mc ms mg ar : ℤ) : Character :=
  { c with
    max_vigor := mv
    max_clarity := mc
    max_spirit := ms
    max_guard := mg
    armor := ar
    vigor := min c.vigor mv
    clarity := min c.clarity mc
    spirit := min c.spirit ms
    guard := min c.guard mg }

/-- The engine's entry precondition (spec §4.2/§7 and data model §3):
pools within `[0, max]` and non-negative armor. -/
def Character.entryInv (c : Character) : Prop :=
  0 ≤ c.vigor ∧ c.vigor ≤ c.max_vigor ∧
  0 ≤ c.guard ∧ c.guard ≤ c.max_guard ∧ 0 ≤ c.armor

instance (c : Character) : Decidable c.entryInv := by
  unfold Character.entryInv; infer_instance

/-- The vigor/guard clamping invariant of spec §8. -/
def Character.poolInv (c : Character) : Prop :=
  0 ≤ c.vigor ∧ c.vigor ≤ c.max_vigor ∧ 0 ≤ c.guard ∧ c.guard ≤ c.max_guard

instance (c : Character) : Decidable c.poolInv := by
  unfold Character.poolInv; infer_instance

/-- The record, as it stands immediately before the vigor stage of
`apply_damage` (after the armor and guard stages). -/
def preVigorChar (c : Character) (damage : ℤ) : Character :=
  (guardStage c (armorStage c damage).remaining).char

/-- The running damage total immediately before the vigor stage of
`apply_damage`. -/
def preVigorRemaining (c : Character) (damage : ℤ) : ℤ :=
  (guardStage c (armorStage c damage).remaining).remaining

/-- The vigor removed by one `apply_damage` call: vigor held just before
the vigor stage minus final vigor. -/
def vigorLoss (c : Character) (damage : ℤ) : ℤ :=
  (preVigorChar c damage).vigor - (c.apply_damage damage).1.vigor

/-- One invocation of a core operation (spec §6), with its argument(s). -/
inductive Op where
  | applyDamage (damage : ℤ)
  | healVigor (amount : ℤ)
  | restoreGuard (amount : ℤ)
  | resetToFull
  | setMaximums (mv mc ms mg ar : ℤ)
deriving DecidableEq

/-- The caller-side argument restrictions (spec §4.1/§6 and the UI input
bounds of src/app.py lines 147-153, 391-395): non-negative damage and
heal/restore amounts; new maximums at least 1 for vigor/clarity/spirit
and at least 0 for guard and armor. -/
def Op.valid : Op → Bool
  | .applyDamage damage => decide (0 ≤ damage)
  | .healVigor amount => decide (0 ≤ amount)
  | .restoreGuard amount => decide (0 ≤ amount)
  | .resetToFull => true
  | .setMaximums mv mc ms mg ar =>
      decide (1 ≤ mv ∧ 1 ≤ mc ∧ 1 ≤ ms ∧ 0 ≤ mg ∧ 0 ≤ ar)

/-- Apply one core operation to a record (reports discarded). -/
def step (c : Character) : Op → Character
  | .applyDamage damage => (c.apply_damage damage).1
  | .healVigor amount => c.heal_vigor amount
  | .restoreGuard amount => c.restore_guard amount
  | .resetToFull => c.reset_to_full
  | .setMaximums mv mc ms mg ar => c.set_maximums mv mc ms mg ar

/-- Apply one core operation while maintaining the history observation
"vigor has reached 0 at some point and no full reset has occurred since"
as a ghost boolean alongside the record: a reset clears it, every other
operation raises it as soon as the resulting vigor is 0. -/
def stepFlag (p : Character × Bool) (op : Op) : Character × Bool :=
  match op with
  | .resetToFull => (step p.1 .resetToFull, false)
  | op => (step p.1 op, p.2 || decide ((step p.1 op).vigor = 0))

/-- Run a sequence of core operations with the ghost observation. -/
def runFlag : Character × Bool → List Op → Character × Bool
  | p, [] => p
  | p, op :: ops => runFlag (stepFlag p op) ops

/-- The state invariant backing the life-cycle claim: vigor non-negative,
maximum vigor at least 1 (spec §3 data model), and a record whose vigor
stands at 0 is not alive. -/
def aliveInv (c : Character) : Prop :=
  0 ≤ c.vigor ∧ 1 ≤ c.max_vigor ∧ (c.vigor = 0 → c.is_alive = false)

instance (c : Character) : Decidable (aliveInv c) := by
  unfold aliveInv; infer_instance

/-- A healthy sample record used to instantiate proved theorems. -/
def vanguard : Character :=
  { name := "vanguard", vigor := 10, max_vigor := 10, clarity := 10, max_clarity := 10,
    spirit := 10, max_spirit := 10, guard := 5, max_guard := 5, armor := 2 }

/-- A slain sample record (vigor exhausted) wearing armor. -/
def deadKnight : Character :=
  { name := "dead knight", vigor := 0, max_vigor := 5, clarity := 5, max_clarity := 5,
    spirit := 5, max_spirit := 5, guard := 0, max_guard := 3, armor := 1,
    is_alive := false }

/-- A sample record with vigor and guard at 0 but still flagged alive. -/
def numbKnight : Character :=
  { name := "numb knight", vigor := 0, max_vigor := 5, clarity := 5, max_clarity := 5,
    spirit := 5, max_spirit := 5, guard := 0, max_guard := 3, armor := 0 }

/-- The record of spec §8 Scenario C: no armor, no guard, vigor 10. -/
def scenarioC : Character :=
  { name := "scenario c", vigor := 10, max_vigor := 10, clarity := 5, max_clarity := 5,
    spirit := 5, max_spirit := 5, guard := 0, max_guard := 3, armor := 0 }

/-- The record of spec §8 Scenario E: no armor, no guard, vigor 3. -/
def scenarioE : Character :=
  { name := "scenario e", vigor := 3, max_vigor := 3, clarity := 5, max_clarity := 5,
    spirit := 5, max_spirit := 5, guard := 0, max_guard := 3, armor := 0 }

/-! ## Theorems -/

theorem mortalCheck_iff (vd ov : ℤ) : mortalCheck vd ov ↔ ov ≤ 2 * vd := by
  unfold mortalCheck
  rw [div_le_iff₀ (by norm_num : (0 : ℚ) < 2), mul_comm]
  norm_cast

theorem armorStage_zero_remaining (c : Character) : (armorStage c 0).remaining = 0 := by
  unfold armorStage
  split_ifs with h
  · simp
    omega
  · rfl

theorem armorStage_zero_log (c : Character) :
    (armorStage c 0).log = if c.armor > 0 then [Event.armorAbsorbed 0] else [] := by
  unfold armorStage
  split_ifs with h
  · simp
    omega
  · rfl

theorem guardStage_nonpos (c : Character) (d : ℤ) (h : ¬ d > 0) :
    guardStage c d = ⟨c, d, false, []⟩ := by
  unfold guardStage
  rw [if_neg (fun hc => h hc.1)]

theorem vigorStage_nonpos (c : Character) (d : ℤ) (h : ¬ d > 0) :
    vigorStage c d = ⟨c, d, false, false, []⟩ := by
  unfold vigorStage
  rw [if_neg h]

/-- C8: `heal_vigor` sets vigor to `min (vigor + amount) max_vigor`; it
clears `is_wounded` and `is_mortally_wounded` exactly when the resulting
vigor equals `max_vigor`, and a partial heal leaves both flags
unchanged. -/
theorem heal_vigor_spec (c : Character) (amount : ℤ) :
    (c.heal_vigor amount).vigor = min (c.vigor + amount) c.max_vigor ∧
    ((c.heal_vigor amount).vigor = c.max_vigor →
      (c.heal_vigor amount).is_wounded = false ∧
      (c.heal_vigor amount).is_mortally_wounded = false) ∧
    ((c.heal_vigor amount).vigor ≠ c.max_vigor →
      (c.heal_vigor amount).is_wounded = c.is_wounded ∧
      (c.heal_vigor amount).is_mortally_wounded = c.is_mortally_wounded) := by
  unfold Character.heal_vigor
  split_ifs with h <;> simp_all

/-- C9: `apply_damage` never changes `armor`, `name`, `clarity`,
`spirit`, any of the four maximums, `notes` or `profile_image`: it
mutates only `guard`, `vigor` and the condition flags. -/
theorem apply_damage_frame (c : Character) (damage : ℤ) :
    (c.apply_damage damage).1.armor = c.armor ∧
    (c.apply_damage damage).1.name = c.name ∧
    (c.apply_damage damage).1.clarity = c.clarity ∧
    (c.apply_damage damage).1.spirit = c.spirit ∧
    (c.apply_damage damage).1.max_vigor = c.max_vigor ∧
    (c.apply_damage damage).1.max_clarity = c.max_clarity ∧
    (c.apply_damage damage).1.max_spirit = c.max_spirit ∧
    (c.apply_damage damage).1.max_guard = c.max_guard ∧
    (c.apply_damage damage).1.notes = c.notes ∧
    (c.apply_damage damage).1.profile_image = c.profile_image := by
  simp only [Character.apply_damage, vigorStage, guardStage, armorStage]
  split_ifs <;> simp

theorem armorStage_log_scar_count (c : Character) (d : ℤ) :
    (armorStage c d).log.count Event.scarInflicted = 0 := by
  unfold armorStage
  split_ifs <;> simp [List.count_cons]

theorem vigorStage_log_scar_count (c : Character) (d : ℤ) :
    (vigorStage c d).log.count Event.scarInflicted = 0 := by
  unfold vigorStage
  split_ifs <;> dsimp only [] <;> simp [List.count_cons, List.count_append]

theorem vigorStage_char_guard (c : Character) (d : ℤ) :
    (vigorStage c d).char.guard = c.guard := by
  unfold vigorStage
  split_ifs <;> rfl

theorem vigorStage_char_scarred (c : Character) (d : ℤ) :
    (vigorStage c d).char.is_scarred = c.is_scarred := by
  unfold vigorStage
  split_ifs <;> rfl

theorem guardStage_char_vigor (c : Character) (d : ℤ) :
    (guardStage c d).char.vigor = c.vigor := by
  unfold guardStage
  split_ifs <;> rfl

theorem guardStage_char_alive (c : Character) (d : ℤ) :
    (guardStage c d).char.is_alive = c.is_alive := by
  unfold guardStage
  split_ifs <;> rfl

theorem guardStage_char_max_vigor (c : Character) (d : ℤ) :
    (guardStage c d).char.max_vigor = c.max_vigor := by
  unfold guardStage
  split_ifs <;> rfl

theorem apply_damage_max_vigor (c : Character) (d : ℤ) :
    (c.apply_damage d).1.max_vigor = c.max_vigor := by
  simp only [Character.apply_damage, vigorStage, guardStage, armorStage]
  split_ifs <;> rfl

theorem apply_damage_max_guard (c : Character) (d : ℤ) :
    (c.apply_damage d).1.max_guard = c.max_guard := by
  simp only [Character.apply_damage, vigorStage, guardStage, armorStage]
  split_ifs <;> rfl

theorem apply_damage_vigor_bounds (c : Character) (d : ℤ) (h0 : 0 ≤ c.vigor) :
    0 ≤ (c.apply_damage d).1.vigor ∧ (c.apply_damage d).1.vigor ≤ c.vigor := by
  have hgv := guardStage_char_vigor c ((armorStage c d).remaining)
  simp only [Character.apply_damage]
  unfold vigorStage
  split_ifs <;> dsimp only [] <;> omega

theorem apply_damage_guard_bounds (c : Character) (d : ℤ) (h0 : 0 ≤ c.guard) :
    0 ≤ (c.apply_damage d).1.guard ∧ (c.apply_damage d).1.guard ≤ c.guard := by
  simp only [Character.apply_damage, vigorStage_char_guard]
  unfold guardStage
  split_ifs <;> dsimp only [] <;> omega

/-- C3: one `apply_damage` call flags `scar_inflicted` exactly when guard
goes from a positive value to exactly zero within that call; the stored
`is_scarred` afterwards is the old value OR-ed with that flag (so the
flag is raised at most once per call — the scar event appears in the log
exactly once when it fires and never otherwise — and a set `is_scarred`
is never cleared by a later hit); `restore_guard` leaves `is_scarred`
untouched for any amount, and only `reset_to_full` clears it. -/
theorem scar_rule (c : Character) (damage amount : ℤ) :
    ((c.apply_damage damage).2.scar_inflicted = true ↔
      0 < c.guard ∧ (c.apply_damage damage).1.guard = 0) ∧
    (c.apply_damage damage).1.is_scarred =
      (c.is_scarred || (c.apply_damage damage).2.scar_inflicted) ∧
    (c.apply_damage damage).2.damage_log.count Event.scarInflicted =
      (if (c.apply_damage damage).2.scar_inflicted then 1 else 0) ∧
    (c.restore_guard amount).is_scarred = c.is_scarred ∧
    c.reset_to_full.is_scarred = false := by
  refine ⟨?_, ?_, ?_, rfl, rfl⟩
  · simp only [Character.apply_damage, vigorStage_char_guard]
    unfold guardStage
    split_ifs <;> dsimp only [] <;> simp [decide_eq_true_iff] <;> omega
  · simp only [Character.apply_damage, vigorStage_char_scarred]
    unfold guardStage
    split_ifs <;> dsimp only [] <;> simp
  · simp only [Character.apply_damage, List.count_append, armorStage_log_scar_count,
      vigorStage_log_scar_count]
    unfold guardStage
    split_ifs <;> simp_all [List.count_cons]

/-- C1 counterexample: an armored record (here additionally slain)
satisfying the entry invariants, hit with `rawDamage = 0`, yields a
report whose event list does contain a mitigation event (armor absorbing
0) and whose `character_slain` flag is true, contradicting the claim that
the report has no mitigation events and all outcome flags false. -/
theorem apply_damage_zero_counterexample :
    deadKnight.entryInv ∧
    (∃ e ∈ (deadKnight.apply_damage 0).2.damage_log, e.isMitigation = true) ∧
    (deadKnight.apply_damage 0).2.character_slain = true := by decide

/-- C1 (amended): `apply_damage` with `rawDamage = 0` leaves the record
unchanged, reports `wounded`, `mortal_wound_inflicted` and
`scar_inflicted` false and `character_slain` equal to the negated entry
alive status (so false for every alive record), applies 0 damage, and
logs no event when `armor ≤ 0` and exactly one armor-absorption event
recording 0 absorbed when `armor > 0`. -/
theorem apply_damage_zero (c : Character) :
    (c.apply_damage 0).1 = c ∧
    (c.apply_damage 0).2.wounded = false ∧
    (c.apply_damage 0).2.mortal_wound_inflicted = false ∧
    (c.apply_damage 0).2.scar_inflicted = false ∧
    (c.apply_damage 0).2.character_slain = !c.is_alive ∧
    (c.apply_damage 0).2.final_damage = 0 ∧
    (c.apply_damage 0).2.damage_log =
      (if 0 < c.armor then [Event.armorAbsorbed 0] else []) := by
  simp only [Character.apply_damage, armorStage_zero_remaining, armorStage_zero_log,
    guardStage_nonpos c 0 (by omega), vigorStage_nonpos c 0 (by omega)]
  simp

/-- C2 counterexample: a record with vigor, guard and armor all 0,
hit with `rawDamage = 0`: the vigor loss (0) does satisfy the exact
comparison `vigorLoss ≥ vigorBefore / 2` (0 ≥ 0), yet the report's
mortal-wound flag is false, refuting the claimed "iff". -/
theorem mortal_flag_counterexample :
    numbKnight.entryInv ∧
    (numbKnight.apply_damage 0).2.mortal_wound_inflicted = false ∧
    mortalCheck (vigorLoss numbKnight 0) ((preVigorChar numbKnight 0).vigor) := by decide

/-- C2 (amended): the report's mortal-wound flag is set iff the vigor
stage runs (positive damage remains after the armor and guard stages)
and the vigor loss is at least half — by exact, non-truncating division —
of the vigor held immediately before the vigor stage; in particular for
armor = 0, guard = 0, vigor = 3 and `rawDamage = 1` the report has
`wounded` true and `mortal_wound_inflicted` false, since 1 < 3/2. -/
theorem mortal_flag_iff (c : Character) (damage : ℤ) :
    ((c.apply_damage damage).2.mortal_wound_inflicted = true ↔
      0 < preVigorRemaining c damage ∧
        mortalCheck (vigorLoss c damage) ((preVigorChar c damage).vigor)) ∧
    (scenarioE.apply_damage 1).2.wounded = true ∧
    (scenarioE.apply_damage 1).2.mortal_wound_inflicted = false := by
  refine ⟨?_, by decide, by decide⟩
  simp only [Character.apply_damage, vigorLoss, preVigorChar, preVigorRemaining]
  generalize guardStage c (armorStage c damage).remaining = g
  obtain ⟨gc, grem, gs, glog⟩ := g
  simp only [vigorStage]
  split_ifs with h <;> simp [decide_eq_true_iff, mortalCheck_iff] <;> omega

/-- C4: starting from a record with both pools within `[0, max]`, each of
`apply_damage`, `heal_vigor`, `restore_guard`, `reset_to_full` and
`set_maximums` (with non-negative arguments, new maximums included)
re-establishes `0 ≤ vigor ≤ max_vigor` and `0 ≤ guard ≤ max_guard`. -/
theorem pool_clamping (c : Character) (d a₁ a₂ mv mc ms mg ar : ℤ)
    (hc : c.poolInv) (hd : 0 ≤ d) (h₁ : 0 ≤ a₁) (h₂ : 0 ≤ a₂)
    (hmv : 0 ≤ mv) (hmg : 0 ≤ mg) :
    (c.apply_damage d).1.poolInv ∧ (c.heal_vigor a₁).poolInv ∧
    (c.restore_guard a₂).poolInv ∧ c.reset_to_full.poolInv ∧
    (c.set_maximums mv mc ms mg ar).poolInv := by
  obtain ⟨hv0, hv1, hg0, hg1⟩ := hc
  refine ⟨?_, ?_, ?_, ?_, ?_⟩
  · obtain ⟨hva, hvb⟩ := apply_damage_vigor_bounds c d hv0
    obtain ⟨hga, hgb⟩ := apply_damage_guard_bounds c d hg0
    have hmax := apply_damage_max_vigor c d
    have hmax' := apply_damage_max_guard c d
    exact ⟨hva, by omega, hga, by omega⟩
  · unfold Character.heal_vigor Character.poolInv
    split_ifs <;> dsimp only [] <;> omega
  · unfold Character.restore_guard Character.poolInv
    dsimp only []
    omega
  · unfold Character.reset_to_full Character.poolInv
    dsimp only []
    omega
  · unfold Character.set_maximums Character.poolInv
    dsimp only []
    omega

theorem pool_clamping_witness :
    (vanguard.poolInv ∧ (0:ℤ) ≤ 3 ∧ (0:ℤ) ≤ 2 ∧ (0:ℤ) ≤ 4 ∧ (0:ℤ) ≤ 8 ∧ (0:ℤ) ≤ 6) ∧
    ((vanguard.apply_damage 3).1.poolInv ∧ (vanguard.heal_vigor 2).poolInv ∧
     (vanguard.restore_guard 4).poolInv ∧ vanguard.reset_to_full.poolInv ∧
     (vanguard.set_maximums 8 7 9 6 1).poolInv) :=
  ⟨by decide,
   pool_clamping vanguard 3 2 4 8 7 9 6 1 (by decide) (by decide) (by decide)
     (by decide) (by decide) (by decide)⟩

/-- C5 (code bug): evaluating the engine at the spec's own Scenario C
record (armor = 0, guard = 0, vigor = 10) with rawDamage = 6: the entry
invariants hold and the mitigation capacity 10 covers the hit, 6 vigor
is indeed removed, yet the reported final damage is 0 rather than the
original 6 — the source never decrements the running damage total in the
vigor stage, so `final_damage` counts armor absorption and guard loss
only, contradicting the claimed equality clause. -/
theorem final_damage_code_bug :
    scenarioC.entryInv ∧
    (6:ℤ) ≤ scenarioC.armor + scenarioC.guard + scenarioC.vigor ∧
    (scenarioC.apply_damage 6).2.original_damage = 6 ∧
    (scenarioC.apply_damage 6).1.vigor = 4 ∧
    (scenarioC.apply_damage 6).2.final_damage = 0 ∧
    (scenarioC.apply_damage 6).2.final_damage ≠
      (scenarioC.apply_damage 6).2.original_damage := by
  decide

/-- C6: for an alive record satisfying the entry invariants, a hit with
`rawDamage ≤ armor` leaves the whole record unchanged (guard, vigor and
every condition flag included) and reports all four outcome flags
false. -/
theorem armor_full_absorption (c : Character) (d : ℤ)
    (hc : c.entryInv) (halive : c.is_alive = true) (hd : 0 ≤ d) (hda : d ≤ c.armor) :
    (c.apply_damage d).1 = c ∧
    (c.apply_damage d).2.wounded = false ∧
    (c.apply_damage d).2.mortal_wound_inflicted = false ∧
    (c.apply_damage d).2.scar_inflicted = false ∧
    (c.apply_damage d).2.character_slain = false := by
  obtain ⟨hv0, hv1, hg0, hg1, ha0⟩ := hc
  have h1 : (armorStage c d).remaining = 0 := by
    unfold armorStage
    split_ifs <;> dsimp only [] <;> omega
  simp only [Character.apply_damage, h1, guardStage_nonpos c 0 (by omega),
    vigorStage_nonpos c 0 (by omega)]
  simp [halive]

theorem armor_full_absorption_witness :
    (vanguard.entryInv ∧ vanguard.is_alive = true ∧ (0:ℤ) ≤ 2 ∧ (2:ℤ) ≤ vanguard.armor) ∧
    ((vanguard.apply_damage 2).1 = vanguard ∧
     (vanguard.apply_damage 2).2.wounded = false ∧
     (vanguard.apply_damage 2).2.mortal_wound_inflicted = false ∧
     (vanguard.apply_damage 2).2.scar_inflicted = false ∧
     (vanguard.apply_damage 2).2.character_slain = false) :=
  ⟨by decide, armor_full_absorption vanguard 2 (by decide) (by decide) (by decide) (by decide)⟩

/-- C10: a record whose vigor is already 0, hit so that positive damage
survives the armor and guard stages, is marked mortally wounded and not
alive, the report flags `mortal_wound_inflicted` and `character_slain`,
while the vigor loss is 0 and `wounded` stays false. -/
theorem zero_vigor_hit (c : Character) (d : ℤ)
    (hv : c.vigor = 0) (hrem : 0 < preVigorRemaining c d) :
    (c.apply_damage d).1.is_mortally_wounded = true ∧
    (c.apply_damage d).1.is_alive = false ∧
    (c.apply_damage d).2.mortal_wound_inflicted = true ∧
    (c.apply_damage d).2.character_slain = true ∧
    (c.apply_damage d).2.wounded = false ∧
    vigorLoss c d = 0 := by
  have hgv := guardStage_char_vigor c ((armorStage c d).remaining)
  unfold preVigorRemaining at hrem
  have hmin : min (guardStage c (armorStage c d).remaining).remaining
      (guardStage c (armorStage c d).remaining).char.vigor = 0 := by omega
  simp only [Character.apply_damage, vigorLoss, preVigorChar]
  unfold vigorStage
  rw [if_pos hrem]
  dsimp only []
  rw [hmin]
  simp [decide_eq_true_iff, mortalCheck_iff]
  omega

theorem zero_vigor_hit_witness :
    (numbKnight.vigor = 0 ∧ 0 < preVigorRemaining numbKnight 1) ∧
    ((numbKnight.apply_damage 1).1.is_mortally_wounded = true ∧
     (numbKnight.apply_damage 1).1.is_alive = false ∧
     (numbKnight.apply_damage 1).2.mortal_wound_inflicted = true ∧
     (numbKnight.apply_damage 1).2.character_slain = true ∧
     (numbKnight.apply_damage 1).2.wounded = false ∧
     vigorLoss numbKnight 1 = 0) :=
  ⟨by decide, zero_vigor_hit numbKnight 1 (by decide) (by decide)⟩

theorem heal_vigor_is_alive (c : Character) (a : ℤ) :
    (c.heal_vigor a).is_alive = c.is_alive := by
  unfold Character.heal_vigor
  split_ifs <;> rfl

theorem apply_damage_dead_stays (c : Character) (d : ℤ) (h : c.is_alive = false) :
    (c.apply_damage d).1.is_alive = false := by
  have hga := guardStage_char_alive c ((armorStage c d).remaining)
  simp only [Character.apply_damage]
  unfold vigorStage
  split_ifs <;> dsimp only [] <;> simp [hga, h]

theorem stepFlag_sync (p : Character × Bool) (op : Op) (hv : op.valid = true)
    (hinv : aliveInv p.1) (hsync : p.1.is_alive = !p.2) :
    aliveInv (stepFlag p op).1 ∧ (stepFlag p op).1.is_alive = !(stepFlag p op).2 := by
  obtain ⟨c, b⟩ := p
  obtain ⟨h0, h1, h2⟩ := hinv
  dsimp only [] at h0 h1 h2 hsync
  cases op with
  | applyDamage d =>
    have hgv := guardStage_char_vigor c ((armorStage c d).remaining)
    have hga := guardStage_char_alive c ((armorStage c d).remaining)
    have hgm := guardStage_char_max_vigor c ((armorStage c d).remaining)
    simp only [stepFlag, step, Character.apply_damage]
    unfold vigorStage
    by_cases h : (guardStage c (armorStage c d).remaining).remaining > 0
    · simp only [if_pos h]
      by_cases hz : (guardStage c (armorStage c d).remaining).char.vigor -
          min (guardStage c (armorStage c d).remaining).remaining
            (guardStage c (armorStage c d).remaining).char.vigor = 0
      · have hle : (guardStage c (armorStage c d).remaining).char.vigor -
            min (guardStage c (armorStage c d).remaining).remaining
              (guardStage c (armorStage c d).remaining).char.vigor ≤ 0 := by (try dsimp only []); omega
        refine ⟨⟨by (try dsimp only []); omega, by (try dsimp only []); omega, fun _ => by simp [hle]⟩, by simp [hz, hle]⟩
      · have hgt : ¬((guardStage c (armorStage c d).remaining).char.vigor -
            min (guardStage c (armorStage c d).remaining).remaining
              (guardStage c (armorStage c d).remaining).char.vigor ≤ 0) := by (try dsimp only []); omega
        refine ⟨⟨by (try dsimp only []); omega, by (try dsimp only []); omega, fun h' => absurd h' hz⟩, ?_⟩
        simp [hz, hgt, hga, hsync]
    · simp only [if_neg h]
      by_cases hz : (guardStage c (armorStage c d).remaining).char.vigor = 0
      · have hdead : c.is_alive = false := h2 (by (try dsimp only []); omega)
        refine ⟨⟨by (try dsimp only []); omega, by (try dsimp only []); omega, fun _ => by rw [hga]; exact hdead⟩, ?_⟩
        simp [hz, hga, hdead]
      · refine ⟨⟨by (try dsimp only []); omega, by (try dsimp only []); omega, fun h' => absurd h' hz⟩, ?_⟩
        simp [hz, hga, hsync]
  | healVigor a =>
    have ha : 0 ≤ a := of_decide_eq_true hv
    simp only [stepFlag, step]
    unfold Character.heal_vigor
    split_ifs with h <;> dsimp only [] <;>
    · by_cases hz : min (c.vigor + a) c.max_vigor = 0
      · have hdead : c.is_alive = false := h2 (by (try dsimp only []); omega)
        exact ⟨⟨by (try dsimp only []); omega, by (try dsimp only []); omega, fun _ => hdead⟩, by simp [hz, hdead]⟩
      · exact ⟨⟨by (try dsimp only []); omega, by (try dsimp only []); omega, fun h' => absurd h' hz⟩, by simp [hz, hsync]⟩
  | restoreGuard a =>
    simp only [stepFlag, step]
    unfold Character.restore_guard
    dsimp only []
    by_cases hz : c.vigor = 0
    · have hdead : c.is_alive = false := h2 hz
      exact ⟨⟨h0, h1, fun _ => hdead⟩, by simp [hz, hdead]⟩
    · exact ⟨⟨h0, h1, fun h' => absurd h' hz⟩, by simp [hz, hsync]⟩
  | resetToFull =>
    simp only [stepFlag, step]
    unfold Character.reset_to_full
    exact ⟨⟨by (try dsimp only []); omega, h1, fun h' => absurd h' (by (try dsimp only []); omega)⟩, by simp⟩
  | setMaximums mv mc ms mg ar =>
    have hm : 1 ≤ mv ∧ 1 ≤ mc ∧ 1 ≤ ms ∧ 0 ≤ mg ∧ 0 ≤ ar := of_decide_eq_true hv
    simp only [stepFlag, step]
    unfold Character.set_maximums
    dsimp only []
    obtain ⟨hmv, -, -, -, -⟩ := hm
    by_cases hz : min c.vigor mv = 0
    · have hdead : c.is_alive = false := h2 (by (try dsimp only []); omega)
      exact ⟨⟨by (try dsimp only []); omega, by (try dsimp only []); omega, fun _ => hdead⟩, by simp [hz, hdead]⟩
    · exact ⟨⟨by (try dsimp only []); omega, by (try dsimp only []); omega, fun h' => absurd h' hz⟩, by simp [hz, hsync]⟩

theorem runFlag_sync (ops : List Op) (p : Character × Bool)
    (hvalid : ops.all Op.valid = true)
    (hinv : aliveInv p.1) (hsync : p.1.is_alive = !p.2) :
    (runFlag p ops).1.is_alive = !(runFlag p ops).2 := by
  induction ops generalizing p with
  | nil => exact hsync
  | cons op ops ih =>
    simp only [List.all_cons, Bool.and_eq_true] at hvalid
    have h := stepFlag_sync p op hvalid.1 hinv hsync
    exact ih (stepFlag p op) hvalid.2 h.1 h.2

/-- C7: starting from any record satisfying the life-cycle invariant
(vigor non-negative, maximum vigor at least 1, vigor 0 only in a
non-alive record), across every sequence of valid core operations the
final `is_alive` is false exactly when some intermediate state since the
last `reset_to_full` had vigor 0 (the ghost flag maintained by
`runFlag`); `heal_vigor` never modifies `is_alive`, even on a full heal;
and no operation other than `reset_to_full` ever turns `is_alive` from
false back to true. -/
theorem alive_lifecycle (c₀ ch : Character) (ops : List Op) (a : ℤ) (op : Op)
    (hinv : aliveInv c₀) (hvalid : ops.all Op.valid = true)
    (hop : op ≠ Op.resetToFull) :
    ((runFlag (c₀, !c₀.is_alive) ops).1.is_alive =
      !(runFlag (c₀, !c₀.is_alive) ops).2) ∧
    (ch.heal_vigor a).is_alive = ch.is_alive ∧
    (ch.is_alive = false → (step ch op).is_alive = false) := by
  refine ⟨runFlag_sync ops (c₀, !c₀.is_alive) hvalid hinv (by simp),
    heal_vigor_is_alive ch a, fun hdead => ?_⟩
  cases op with
  | applyDamage d => exact apply_damage_dead_stays ch d hdead
  | healVigor a' => rw [step, heal_vigor_is_alive]; exact hdead
  | restoreGuard a' => exact hdead
  | resetToFull => exact absurd rfl hop
  | setMaximums mv mc ms mg ar => exact hdead

theorem alive_lifecycle_witness :
    (aliveInv vanguard ∧
     ([Op.applyDamage 20, Op.healVigor 5, Op.resetToFull,
       Op.applyDamage 1].all Op.valid = true) ∧
     Op.applyDamage 3 ≠ Op.resetToFull) ∧
    (((runFlag (vanguard, !vanguard.is_alive)
        [Op.applyDamage 20, Op.healVigor 5, Op.resetToFull,
         Op.applyDamage 1]).1.is_alive =
      !(runFlag (vanguard, !vanguard.is_alive)
        [Op.applyDamage 20, Op.healVigor 5, Op.resetToFull,
         Op.applyDamage 1]).2) ∧
     (vanguard.heal_vigor 2).is_alive = vanguard.is_alive ∧
     (vanguard.is_alive = false → (step vanguard (Op.applyDamage 3)).is_alive = false)) :=
  ⟨by decide,
   alive_lifecycle vanguard vanguard
     [Op.applyDamage 20, Op.healVigor 5, Op.resetToFull, Op.applyDamage 1]
     2 (Op.applyDamage 3) (by decide) (by decide) (by decide)⟩

end MythicBastionland
